import Mathlib

/-!
Shallow embedding of `drivers/pwm/pwm-protean-logger.c`, a Linux PWM driver
for the "protean" multi-channel PWM controller reached over I2C via regmap.

Modelling conventions:
* C `unsigned long` (64-bit) arithmetic is `Nat` with `% 2 ^ 64` where an
  operation could wrap; C `int` inputs are `Int` converted through the C
  implicit conversion to `unsigned long` where the source does so.
* The regmap bus collaborator (out of scope for the driver core, external to
  this repository) is an oracle `BusModel` giving the errno result of
  `regmap_write` and the `Except` outcome of `regmap_read`; every operation
  also returns the list of bus operations it issued (its trace).
* Only the `mode` field of `struct protean_pwm` is modelled; the `dev`,
  `regmap` and `chip` fields are handles to out-of-scope collaborators.
-/

namespace ProteanPwm

/-- Macro `PRO_DEV_MAX_REG = 0x0C`. -/
def PRO_DEV_MAX_REG : Nat := 0x0C

/-- Macro `PRO_DEV_MAX_CHANNELS = 6`. -/
def PRO_DEV_MAX_CHANNELS : Nat := 6

/-- Macro `PRO_DEV_REG_MODE = 0x00`. -/
def PRO_DEV_REG_MODE : Nat := 0x00

/-- Macro `PRO_DEV_REG_CH1 = 0x01`. -/
def PRO_DEV_REG_CH1 : Nat := 0x01

/-- Macro `PRO_COG_FREQ = 80000000`. -/
def PRO_COG_FREQ : Nat := 80000000

/-- Macro `PRO_NS_SEC = 1000000000`. -/
def PRO_NS_SEC : Nat := 1000000000

/-- Linux errno `EINVAL` (22); the driver returns `-EINVAL`. -/
def EINVAL : Int := 22

/-- Linux errno `EIO_errno` (5); regmap returns `-EIO_errno` on transport failure. -/
def EIO_errno : Int := 5

/-- Source `enum protean_pwm_mode`. -/
inductive protean_pwm_mode where
  | PRO_MODE_MEASURE
  | PRO_MODE_GEN
deriving DecidableEq, Repr

/-- The integer value of each enumerator: `PRO_MODE_MEASURE = 0`,
`PRO_MODE_GEN = 1`. -/
def mode_code : protean_pwm_mode → Nat
  | .PRO_MODE_MEASURE => 0
  | .PRO_MODE_GEN => 1

/-- Source `struct regmap_range` — an inclusive address range. -/
structure regmap_range where
  range_min : Nat
  range_max : Nat
deriving DecidableEq, Repr

/-- Source `static const struct regmap_range read_ranges[]`:
`{0x01,0x06}` (channel registers), `{0x0A,0x0A}` (firmware version),
`{0x0C,0x0C}` (rotary encoder). -/
def read_ranges : List regmap_range :=
  [⟨0x01, 0x06⟩, ⟨0x0A, 0x0A⟩, ⟨0x0C, 0x0C⟩]

/-- Source `static const struct regmap_range write_ranges[]`:
`{0x00,0x06}` (config + channel registers), `{0x0B,0x0B}` (reset pseudo
register). -/
def write_ranges : List regmap_range :=
  [⟨0x00, 0x06⟩, ⟨0x0B, 0x0B⟩]

/-- Source `struct regmap_access_table` — yes-ranges and no-ranges. -/
structure regmap_access_table where
  yes_ranges : List regmap_range
  no_ranges : List regmap_range
deriving DecidableEq, Repr

/-- Source `static const struct regmap_access_table read_table` — yes = read_ranges,
no = write_ranges, exactly as declared at lines 44-49 of the source. -/
def read_table : regmap_access_table :=
  { yes_ranges := read_ranges, no_ranges := write_ranges }

/-- Source `static const struct regmap_access_table write_table` — yes = write_ranges,
no = read_ranges, exactly as declared at lines 51-56 of the source. -/
def write_table : regmap_access_table :=
  { yes_ranges := write_ranges, no_ranges := read_ranges }

/-- regmap's `regmap_reg_in_ranges`: is `reg` inside one of the inclusive
ranges? -/
def reg_in_ranges (reg : Nat) (rs : List regmap_range) : Bool :=
  rs.any fun r => decide (r.range_min ≤ reg) && decide (reg ≤ r.range_max)

/-- An access table is internally consistent when no register address up to
`PRO_DEV_MAX_REG` lies both in its yes-ranges and in its no-ranges. -/
def table_consistent (t : regmap_access_table) : Bool :=
  (List.range (PRO_DEV_MAX_REG + 1)).all fun reg =>
    !(reg_in_ranges reg t.yes_ranges && reg_in_ranges reg t.no_ranges)

/-- One raw operation issued to the regmap bus collaborator. -/
inductive BusOp where
  | write (addr val : Nat)
  | read (addr : Nat)
deriving DecidableEq, Repr

/-- The bus collaborator: result of `regmap_write addr val` (0 or negative
errno) and outcome of `regmap_read addr` (value read, or negative errno). -/
structure BusModel where
  writeRes : Nat → Nat → Int
  readRes : Nat → Except Int Nat

/-- A bus on which every transfer succeeds and every read returns 0. -/
def okBus : BusModel :=
  { writeRes := fun _ _ => 0, readRes := fun _ => Except.ok 0 }

/-- A bus on which every transfer fails with the errno `e`. -/
def failBus (e : Int) : BusModel :=
  { writeRes := fun _ _ => e, readRes := fun _ => Except.error e }

/-- Source `struct protean_pwm`, restricted to its only modelled field: the
`enum protean_pwm_mode mode` member (stored as its integer value).
`dev`, `regmap` and `chip` are opaque collaborator handles. -/
structure protean_pwm where
  mode : Nat
deriving DecidableEq, Repr

/-- The instance built by `probe`: `devm_kzalloc` zero-fills the struct and
no statement of `probe` (lines 165-193) ever assigns `->mode`, so the field
holds 0. -/
def probe : protean_pwm := { mode := 0 }

/-- Framework `struct pwm_capture` — the fields `measure_channel` fills. -/
structure pwm_capture where
  duty_cycle : Nat
  period : Nat
deriving DecidableEq, Repr

/-- Result of an operation returning `int`: errno-style return value, the
trace of bus operations issued, and the driver struct afterwards. -/
structure WriteOut where
  ret : Int
  trace : List BusOp
  pp : protean_pwm
deriving DecidableEq, Repr

/-- Result of `measure_channel`: return value, the filled
`struct pwm_capture`, bus trace, struct afterwards. -/
structure CaptureOut where
  ret : Int
  result : pwm_capture
  trace : List BusOp
  pp : protean_pwm
deriving DecidableEq, Repr

/-- Result of the `void` function `disable_pwm_gen`: bus trace and struct
afterwards (the `regmap_write` return value is discarded by the source). -/
structure DisableOut where
  trace : List BusOp
  pp : protean_pwm
deriving DecidableEq, Repr

/-- C conversion of a (possibly negative) `int` value to `unsigned long`
(64-bit): reduction modulo `2 ^ 64`. -/
def toULong (x : Int) : Nat := (x % (2 : Int) ^ 64).toNat

/-- Local `const unsigned long denom = 125;` (both in `write_channel` line 85 and
`measure_channel` line 112: `(10 * PRO_NS_SEC) / PRO_COG_FREQ = 125`). -/
def denom : Nat := 125

/-- The duty encoding of `write_channel` line 86:
`unsigned long duty_arb = (10L * (duty_ns / denom)) >> 10;`
(`duty_ns / denom` converts `duty_ns` to `unsigned long`; the product is
taken modulo `2 ^ 64`; `>>` is a logical shift). -/
def encode_duty (duty_ns : Int) : Nat :=
  ((10 * (toULong duty_ns / denom)) % 2 ^ 64) >>> 10

/-- The duty reconstruction of `measure_channel` line 119:
`result->duty_cycle = ((duty_arb << 10) * denom) / 10;`
exact for the 8-bit register values (≤ 255) the device can return. -/
def decode_duty (duty_arb : Nat) : Nat :=
  ((duty_arb <<< 10) * denom) / 10

/-- Function `write_channel` (lines 72-96), the `.config` callback: encode `duty_ns`,
reject with `-EINVAL` if the arbitrary-unit value exceeds 255, otherwise
issue `regmap_write(PRO_DEV_REG_CH1 + hwpwm, duty_arb)` and return its
result. `period_ns` is accepted and ignored; the channel index is never
validated. -/
def write_channel (pp : protean_pwm) (bus : BusModel) (hwpwm : Nat)
    (duty_ns _period_ns : Int) : WriteOut :=
  let duty_arb := encode_duty duty_ns
  if 255 < duty_arb then
    { ret := -EINVAL, trace := [], pp := pp }
  else
    { ret := bus.writeRes (PRO_DEV_REG_CH1 + hwpwm) duty_arb
      trace := [BusOp.write (PRO_DEV_REG_CH1 + hwpwm) duty_arb]
      pp := pp }

/-- Function `measure_channel` (lines 99-123), the `.capture` callback: issue
`regmap_read(PRO_DEV_REG_CH1 + hwpwm, &duty_arb)` IGNORING its return value
(the source discards it; on failure `duty_arb` keeps its indeterminate
stack value, modelled by the `uninit` parameter), then unconditionally fill
the capture result and return 0. `timeout` is accepted and unused. -/
def measure_channel (pp : protean_pwm) (bus : BusModel) (hwpwm : Nat)
    (uninit : Nat) (_timeout : Nat) : CaptureOut :=
  let addr := PRO_DEV_REG_CH1 + hwpwm
  let duty_arb :=
    match bus.readRes addr with
    | Except.ok v => v
    | Except.error _ => uninit
  { ret := 0
    result := { duty_cycle := decode_duty duty_arb, period := PRO_NS_SEC / 50 }
    trace := [BusOp.read addr]
    pp := pp }

/-- Function `enable_pwm_gen` (lines 126-130), the `.enable` callback:
`return regmap_write(protean_pwm->regmap, PRO_DEV_REG_MODE, 1);`. -/
def enable_pwm_gen (pp : protean_pwm) (bus : BusModel) : WriteOut :=
  { ret := bus.writeRes PRO_DEV_REG_MODE 1
    trace := [BusOp.write PRO_DEV_REG_MODE 1]
    pp := pp }

/-- Function `disable_pwm_gen` (lines 133-137), the `.disable` callback (`void`):
`regmap_write(protean_pwm->regmap, PRO_DEV_REG_MODE, 1);` — the literal
written at line 136 is 1, the same value `enable_pwm_gen` writes. -/
def disable_pwm_gen (pp : protean_pwm) (_bus : BusModel) : DisableOut :=
  { trace := [BusOp.write PRO_DEV_REG_MODE 1]
    pp := pp }

/-- Function `set_polarity` (lines 65-70), the `.set_polarity` callback:
`return -EINVAL;` for every channel and polarity, touching nothing. -/
def set_polarity (pp : protean_pwm) (_ch _polarity : Nat) : WriteOut :=
  { ret := -EINVAL, trace := [], pp := pp }

/-- Function `remove` (lines 196-204): fetch the client data and call
`disable_pwm_gen` ("set it back to echo mode"), then `pwmchip_remove`
(framework bookkeeping, no regmap traffic). -/
def remove (pp : protean_pwm) (bus : BusModel) : DisableOut :=
  disable_pwm_gen pp bus

/-- Register-file semantics of a bus operation on the device: a write
updates the addressed register, a read changes nothing. -/
def applyOp (d : Nat → Nat) : BusOp → (Nat → Nat)
  | .write addr val => fun a => if a = addr then val else d a
  | .read _ => d

/-- Register-file semantics of a whole trace, first operation first. -/
def applyTrace (d : Nat → Nat) (tr : List BusOp) : Nat → Nat :=
  tr.foldl applyOp d

/-- One call to any of the five `pwm_ops` callbacks, with its arguments. -/
inductive op_call where
  | config (hwpwm : Nat) (duty_ns period_ns : Int)
  | capture (hwpwm uninit timeout : Nat)
  | enable
  | disable
  | set_pol (ch polarity : Nat)

/-- The driver struct after servicing one callback. -/
def step (bus : BusModel) (pp : protean_pwm) : op_call → protean_pwm
  | .config hw d p => (write_channel pp bus hw d p).pp
  | .capture hw u t => (measure_channel pp bus hw u t).pp
  | .enable => (enable_pwm_gen pp bus).pp
  | .disable => (disable_pwm_gen pp bus).pp
  | .set_pol c p => (set_polarity pp c p).pp


/-- Helper: servicing any callback returns the driver struct unchanged —
no operation of the source assigns any field of `struct protean_pwm`. -/
theorem step_id (bus : BusModel) (pp : protean_pwm) (op : op_call) :
    step bus pp op = pp := by
  cases op <;>
    simp only [step, write_channel, measure_channel, enable_pwm_gen,
      disable_pwm_gen, set_polarity]
  all_goals first
    | rfl
    | (split <;> rfl)

/-- Claim C1: the spec says `disable()` writes the mode register with the
measure/echo code (`PRO_MODE_MEASURE = 0`), and that `remove` calls it to
leave the device measuring. The code disagrees with the spec and with its
own comment at line 200 ("set it back to echo mode"): `disable_pwm_gen`
(and hence `remove`) issues exactly one mode-register write, but its value
is the literal 1 = `mode_code PRO_MODE_GEN`, not the measure code 0. -/
theorem c1_disable_and_remove_write_gen_code (pp : protean_pwm) (bus : BusModel) :
    (disable_pwm_gen pp bus).trace = [BusOp.write PRO_DEV_REG_MODE 1] ∧
    (remove pp bus).trace = [BusOp.write PRO_DEV_REG_MODE 1] ∧
    mode_code protean_pwm_mode.PRO_MODE_GEN = 1 ∧
    mode_code protean_pwm_mode.PRO_MODE_MEASURE ≠ 1 :=
  ⟨rfl, rfl, rfl, by decide⟩

/-- Claim C4: the spec says a failing bus read is propagated unmodified by
capture. The code ignores the return value of `regmap_read` and returns 0
unconditionally: on a bus whose reads fail with errno `e ≠ 0`,
`measure_channel` still reports success, never `e`. -/
theorem c4_bus_read_error_not_propagated (pp : protean_pwm) (e : Int)
    (hw uninit timeout : Nat) (he : e ≠ 0) :
    (measure_channel pp (failBus e) hw uninit timeout).ret = 0 ∧
    (measure_channel pp (failBus e) hw uninit timeout).ret ≠ e :=
  ⟨rfl, fun h => he (by simpa [measure_channel] using h.symm)⟩

/-- Witness for C4 at the concrete errno `-EIO_errno` on channel 0. -/
theorem c4_bus_read_error_not_propagated_witness :
    (-EIO_errno ≠ (0 : Int)) ∧
    (measure_channel probe (failBus (-EIO_errno)) 0 0 0).ret = 0 ∧
    (measure_channel probe (failBus (-EIO_errno)) 0 0 0).ret ≠ -EIO_errno :=
  ⟨by decide, c4_bus_read_error_not_propagated probe (-EIO_errno) 0 0 0 (by decide)⟩

/-- Claim C6: the claim says no register address appears both in a table's
yes-ranges and in its no-ranges. In the declared tables each direction's
no-ranges are the other direction's ranges, and the channel registers
`0x01..0x06` lie in both: address `0x01` is in `read_table.yes_ranges`
(via `read_ranges`) and in `read_table.no_ranges` (via `write_ranges`),
and likewise for `write_table`; neither table is internally consistent. -/
theorem c6_access_tables_overlap :
    reg_in_ranges 0x01 read_table.yes_ranges = true ∧
    reg_in_ranges 0x01 read_table.no_ranges = true ∧
    reg_in_ranges 0x01 write_table.yes_ranges = true ∧
    reg_in_ranges 0x01 write_table.no_ranges = true ∧
    table_consistent read_table = false ∧
    table_consistent write_table = false := by decide

/-- Claim C8: for every channel and polarity value `set_polarity` fails
with `-EINVAL` (the driver's "unsupported" error), issues no bus operation
and leaves the driver struct untouched. -/
theorem c8_set_polarity_always_unsupported (pp : protean_pwm) (ch polarity : Nat) :
    set_polarity pp ch polarity =
      { ret := -EINVAL, trace := [], pp := pp } := rfl

/-- Claim C9: every capture on a valid channel reports a period equal to
`PRO_NS_SEC / 50 = 20000000` ns, whatever the bus returns (success with any
raw value, or failure) for the duty register. -/
theorem c9_capture_period_fixed (pp : protean_pwm) (bus : BusModel)
    (hw uninit timeout : Nat) (_hhw : hw < PRO_DEV_MAX_CHANNELS) :
    (measure_channel pp bus hw uninit timeout).result.period = 20000000 := rfl

/-- Witness for C9 on channel 0 with the all-success bus. -/
theorem c9_capture_period_fixed_witness :
    0 < PRO_DEV_MAX_CHANNELS ∧
    (measure_channel probe okBus 0 0 0).result.period = 20000000 :=
  ⟨by decide, c9_capture_period_fixed probe okBus 0 0 0 (by decide)⟩

/-- Claim C10: no callback ever modifies the `mode` field of
`struct protean_pwm`: each call returns it unchanged, so after any sequence
of callbacks on the zero-initialized struct built by `probe` the field
still holds `mode_code PRO_MODE_MEASURE = 0`. -/
theorem c10_mode_field_never_modified (bus : BusModel) (ops : List op_call) :
    (∀ (pp : protean_pwm) (op : op_call), (step bus pp op).mode = pp.mode) ∧
    (ops.foldl (step bus) probe).mode = mode_code protean_pwm_mode.PRO_MODE_MEASURE := by
  refine ⟨fun pp op => by rw [step_id], ?_⟩
  have h : ops.foldl (step bus) probe = probe := by
    induction ops with
    | nil => rfl
    | cons op rest ih => rw [List.foldl_cons, step_id]; exact ih
  rw [h]; rfl

/-- Claim C7: `enable_pwm_gen` issues exactly one bus write, to the mode
register with the generate code `mode_code PRO_MODE_GEN = 1`; applied to any
device register file the trace leaves the mode register holding the
generate code, and the call returns 0 when the bus write succeeds. A second
enable from the resulting state behaves identically: it succeeds and the
device mode register still holds the generate code. -/
theorem c7_enable_writes_gen_and_idempotent (pp : protean_pwm) (bus : BusModel)
    (d : Nat → Nat) (hb : bus.writeRes PRO_DEV_REG_MODE 1 = 0) :
    (enable_pwm_gen pp bus).trace =
      [BusOp.write PRO_DEV_REG_MODE (mode_code protean_pwm_mode.PRO_MODE_GEN)] ∧
    (enable_pwm_gen pp bus).ret = 0 ∧
    applyTrace d (enable_pwm_gen pp bus).trace PRO_DEV_REG_MODE =
      mode_code protean_pwm_mode.PRO_MODE_GEN ∧
    (enable_pwm_gen (enable_pwm_gen pp bus).pp bus).trace =
      [BusOp.write PRO_DEV_REG_MODE (mode_code protean_pwm_mode.PRO_MODE_GEN)] ∧
    (enable_pwm_gen (enable_pwm_gen pp bus).pp bus).ret = 0 ∧
    applyTrace (applyTrace d (enable_pwm_gen pp bus).trace)
      (enable_pwm_gen (enable_pwm_gen pp bus).pp bus).trace PRO_DEV_REG_MODE =
      mode_code protean_pwm_mode.PRO_MODE_GEN :=
  ⟨rfl, hb, rfl, rfl, hb, rfl⟩

/-- Witness for C7: fresh struct, all-success bus, empty register file. -/
theorem c7_enable_writes_gen_and_idempotent_witness :
    okBus.writeRes PRO_DEV_REG_MODE 1 = 0 ∧
    ((enable_pwm_gen probe okBus).trace =
      [BusOp.write PRO_DEV_REG_MODE (mode_code protean_pwm_mode.PRO_MODE_GEN)] ∧
    (enable_pwm_gen probe okBus).ret = 0 ∧
    applyTrace (fun _ => 0) (enable_pwm_gen probe okBus).trace PRO_DEV_REG_MODE =
      mode_code protean_pwm_mode.PRO_MODE_GEN ∧
    (enable_pwm_gen (enable_pwm_gen probe okBus).pp okBus).trace =
      [BusOp.write PRO_DEV_REG_MODE (mode_code protean_pwm_mode.PRO_MODE_GEN)] ∧
    (enable_pwm_gen (enable_pwm_gen probe okBus).pp okBus).ret = 0 ∧
    applyTrace (applyTrace (fun _ => 0) (enable_pwm_gen probe okBus).trace)
      (enable_pwm_gen (enable_pwm_gen probe okBus).pp okBus).trace PRO_DEV_REG_MODE =
      mode_code protean_pwm_mode.PRO_MODE_GEN) :=
  ⟨rfl, c7_enable_writes_gen_and_idempotent probe okBus (fun _ => 0) rfl⟩


/-- Helper: for a nonnegative C `int` value the conversion to
`unsigned long` is the identity. -/
theorem toULong_eq (x : Int) (h0 : 0 ≤ x) (_h1 : x < 2 ^ 31) :
    toULong x = x.toNat := by
  unfold toULong
  rw [Int.emod_eq_of_lt h0 (by omega)]

/-- Helper: on nonnegative in-range C `int` inputs the encoding is the pure
integer expression `10 * (duty_ns / 125) / 1024`, all wraparound reductions
being vacuous. -/
theorem encode_eq (duty_ns : Int) (h0 : 0 ≤ duty_ns) (h1 : duty_ns < 2 ^ 31) :
    encode_duty duty_ns = 10 * (duty_ns.toNat / 125) / 1024 := by
  have hn31 : duty_ns.toNat < 2 ^ 31 := by omega
  have hlt : 10 * (duty_ns.toNat / 125) < 2 ^ 64 := by
    have h := Nat.div_le_self duty_ns.toNat 125
    omega
  unfold encode_duty denom
  rw [toULong_eq duty_ns h0 h1, Nat.mod_eq_of_lt hlt, Nat.shiftRight_eq_div_pow]

/-- Helper: the reconstruction is exactly 12800 ns per arbitrary unit:
`(e << 10) * 125 / 10 = 12800 * e`. -/
theorem decode_eq (e : Nat) : decode_duty e = 12800 * e := by
  unfold decode_duty denom
  rw [Nat.shiftLeft_eq]
  omega

/-- Claim C2 counterexample: `duty_ns = 12799` ns is in the representable
range (it encodes to arbitrary unit 0 ≤ 255), yet the reconstruction is
0 ns — an error of 12799 ns, far above one 125 ns step. -/
theorem c2_roundtrip_step_counterexample :
    encode_duty 12799 ≤ 255 ∧
    decode_duty (encode_duty 12799) = 0 ∧
    125 < 12799 - decode_duty (encode_duty 12799) := by decide

/-- Claim C2, amended: because line 86 right-shifts by 10 after the ÷125,
one arbitrary unit is effectively 12800 ns, not 125 ns. For every
nonnegative in-range `duty_ns`, the reconstruction never exceeds `duty_ns`
and falls short of it by at most 12899 ns (one effective 12800 ns unit step
plus the sub-step truncation residue), and this bound is what the code
actually guarantees in place of the claimed 125 ns. -/
theorem c2_roundtrip_error_bounded (duty_ns : Int) (h0 : 0 ≤ duty_ns)
    (h1 : duty_ns < 2 ^ 31) (_h2 : encode_duty duty_ns ≤ 255) :
    decode_duty (encode_duty duty_ns) ≤ duty_ns.toNat ∧
    duty_ns.toNat - decode_duty (encode_duty duty_ns) ≤ 12899 := by
  rw [decode_eq, encode_eq duty_ns h0 h1]
  omega

/-- Witness for amended C2 at `duty_ns = 38499`, which encodes to unit 2
and reconstructs to 25600 ns (error 12899 ns, attaining the bound). -/
theorem c2_roundtrip_error_bounded_witness :
    (0 ≤ (38499 : Int)) ∧ ((38499 : Int) < 2 ^ 31) ∧
    encode_duty 38499 ≤ 255 ∧
    (decode_duty (encode_duty 38499) ≤ (38499 : Int).toNat ∧
     (38499 : Int).toNat - decode_duty (encode_duty 38499) ≤ 12899) :=
  ⟨by decide, by decide, by decide,
   c2_roundtrip_error_bounded 38499 (by decide) (by decide) (by decide)⟩

/-- Claim C3 counterexample: `duty_ns = 31875` (the spec scenario's claimed
failure threshold) encodes to arbitrary unit 2 ≤ 255, so `write_channel`
succeeds and issues a bus write instead of failing with out-of-range. -/
theorem c3_threshold_counterexample :
    encode_duty 31875 = 2 ∧
    write_channel probe okBus 0 31875 20000000 =
      { ret := 0, trace := [BusOp.write 1 2], pp := probe } := by decide

/-- Claim C3, amended: when the encoded unit exceeds 255, `write_channel`
fails with `-EINVAL` issuing no bus write and leaving the struct untouched
(no clamping), and `encode_duty 0 = 0`; but under the `>> 10` encoding the
over-range threshold for nonnegative C `int` inputs is 3276875 ns, not
about 31875 ns. -/
theorem c3_out_of_range_threshold (pp : protean_pwm) (bus : BusModel) (hw : Nat)
    (duty_ns period_ns : Int) (h0 : 0 ≤ duty_ns) (h1 : duty_ns < 2 ^ 31) :
    (255 < encode_duty duty_ns →
      write_channel pp bus hw duty_ns period_ns =
        { ret := -EINVAL, trace := [], pp := pp }) ∧
    (255 < encode_duty duty_ns ↔ 3276875 ≤ duty_ns) ∧
    encode_duty 0 = 0 := by
  refine ⟨fun h => ?_, ?_, by decide⟩
  · simp [write_channel, h]
  · rw [encode_eq duty_ns h0 h1]
    omega

/-- Witness for amended C3 at the exact threshold `duty_ns = 3276875`. -/
theorem c3_out_of_range_threshold_witness :
    (0 ≤ (3276875 : Int)) ∧ ((3276875 : Int) < 2 ^ 31) ∧
    255 < encode_duty 3276875 ∧
    write_channel probe okBus 0 3276875 20000000 =
      { ret := -EINVAL, trace := [], pp := probe } :=
  have h := c3_out_of_range_threshold probe okBus 0 3276875 20000000
    (by decide) (by decide)
  ⟨by decide, by decide, h.2.1.mpr (by decide), h.1 (h.2.1.mpr (by decide))⟩

/-- Claim C5 counterexample: channel index 6 (= `PRO_DEV_MAX_CHANNELS`, out
of range) is not rejected: both callbacks compute the register address
`PRO_DEV_REG_CH1 + 6 = 7`, issue the bus access to it, and report success
on a bus that accepts everything — no invalid-channel failure before
address arithmetic or bus traffic. -/
theorem c5_channel6_counterexample :
    (write_channel probe okBus 6 0 0).ret = 0 ∧
    (write_channel probe okBus 6 0 0).trace =
      [BusOp.write (PRO_DEV_REG_CH1 + 6) 0] ∧
    (measure_channel probe okBus 6 0 0).ret = 0 ∧
    (measure_channel probe okBus 6 0 0).trace =
      [BusOp.read (PRO_DEV_REG_CH1 + 6)] := by decide

/-- Claim C5, amended: the driver performs no channel-index validation at
all. For every channel index `hw` — out-of-range ones included; the index
is an unsigned `hwpwm`, so negatives cannot occur — `write_channel` (when
the duty is representable) and `measure_channel` compute the register
address `PRO_DEV_REG_CH1 + hw` and issue the bus access to it; rejection
of bad addresses is left entirely to the external regmap layer. -/
theorem c5_no_channel_validation (pp : protean_pwm) (bus : BusModel) (hw : Nat)
    (duty_ns period_ns : Int) (uninit timeout : Nat)
    (h : encode_duty duty_ns ≤ 255) :
    (write_channel pp bus hw duty_ns period_ns).trace =
      [BusOp.write (PRO_DEV_REG_CH1 + hw) (encode_duty duty_ns)] ∧
    (write_channel pp bus hw duty_ns period_ns).ret =
      bus.writeRes (PRO_DEV_REG_CH1 + hw) (encode_duty duty_ns) ∧
    (measure_channel pp bus hw uninit timeout).trace =
      [BusOp.read (PRO_DEV_REG_CH1 + hw)] := by
  have hnot : ¬ (255 < encode_duty duty_ns) := by omega
  refine ⟨?_, ?_, rfl⟩ <;> simp [write_channel, hnot]

/-- Witness for amended C5 at the out-of-range channel 6 with duty 0. -/
theorem c5_no_channel_validation_witness :
    encode_duty 0 ≤ 255 ∧
    ((write_channel probe okBus 6 0 0).trace =
      [BusOp.write (PRO_DEV_REG_CH1 + 6) (encode_duty 0)] ∧
     (write_channel probe okBus 6 0 0).ret =
      okBus.writeRes (PRO_DEV_REG_CH1 + 6) (encode_duty 0) ∧
     (measure_channel probe okBus 6 0 0).trace =
      [BusOp.read (PRO_DEV_REG_CH1 + 6)]) :=
  ⟨by decide, c5_no_channel_validation probe okBus 6 0 0 0 0 (by decide)⟩

end ProteanPwm
